import Mathlib

/-!
# Verification of the Intelligent Agent System pipeline core

A shallow embedding of the repository's core (src/agents.py, src/orchestrator.py,
src/logger.py) and proofs of the testable properties stated in its specification.

Modelling choices:
* Python values that flow through the pipeline (the `Dict[str, Any]` stage results)
  are modelled by the inductive type `Val`; Python dicts become ordered association
  lists with unique keys, looked up with `List.lookup`.
* The Completion Client (`self.llm.invoke`) is an external collaborator; each agent
  takes a client `llm : String → Except ε String` mapping a prompt to generated text
  or a raised error of an abstract error type `ε`.
* `time.time()` is modelled by a clock `Nat → ℚ`: `clock i` is the reading returned
  by the i-th `time.time()` call site executed inside `execute_workflow`
  (0 = workflow start, 1 = id stamp, 2/3 = around research, 4/5 = analysis,
  6/7 = writing, 8/9 = review, 10 = workflow end).
* The telemetry emitted by the `track_agent_performance` decorator (agent start with
  its arguments, agent end, agent error) and by `logger.log_metrics` is modelled as
  an explicit list of `Event`s returned alongside the result; plain `logger.logger.info`
  text lines carry no structured data and are not modelled.
* The orchestrator's mutable `workflow_history` list is threaded explicitly:
  `execute_workflow` takes the history before the call and returns the history after
  it (unchanged when the call raises, since `self.workflow_history.append` is only
  reached after all four stages succeed).
-/

/-- A Python value as it appears in the stage-result dicts of this program:
strings, ints (`word_count`), floats (scores and timings, modelled exactly as
rationals), booleans (`approved`) and string-keyed dicts. -/
inductive Val where
  | str (s : String)
  | int (n : Int)
  | num (q : ℚ)
  | bool (b : Bool)
  | dict (fields : List (String × Val))

/-- A telemetry event, as emitted to the Telemetry Sink (Logfire) by
`track_agent_performance` in src/logger.py and `logger.log_metrics`. -/
inductive Event where
  | agentStart (agent task input : String)
  | agentEnd (agent : String)
  | agentError (agent context : String)
  | metrics (agent : String) (values : List (String × ℚ))
deriving DecidableEq

/-- Python's `s.split()` (no separator argument): split on whitespace, discarding
empty tokens (defined over the character list so that proofs can evaluate it). -/
def pySplit (s : String) : List String :=
  ((s.data.splitOnP fun c => c.isWhitespace).map fun l => (⟨l⟩ : String)).filter
    fun t => t ≠ ""

/-- Python's slice `s[:n]`: the first n characters (defined over the character
list so that proofs can evaluate it). -/
def pyTake (s : String) (n : Nat) : String :=
  ⟨s.data.take n⟩

/-- Python's `isinstance(output, dict)`. -/
def Val.isDict : Val → Bool
  | .dict _ => true
  | _ => false

/-- Python's `key in output` for a dict (never reached on non-dicts here because
`isinstance` is checked first with short-circuit `and`). -/
def Val.hasKey (v : Val) (key : String) : Bool :=
  match v with
  | .dict fields => (fields.lookup key).isSome
  | _ => false

/-- Models the orchestrator's `result.get(key, "")` followed by using the value as
the next stage's string input. Every agent-produced dict binds these keys to
strings, so the string payload is returned; a dict lacking the key yields the
default `""`. -/
def getFieldD (v : Val) (key : String) : String :=
  match v with
  | .dict fields =>
      match fields.lookup key with
      | some (Val.str s) => s
      | some _ => ""
      | none => ""
  | _ => ""

/-- The `track_agent_performance` decorator of src/logger.py: log an agent-start
event carrying the call's arguments, run the function, then log an agent-end event
on success or an agent-error event on failure, re-raising the error unchanged. -/
def trackedExecute {ε : Type} (agent : String) (core : String → Except ε Val)
    (input : String) : List Event × Except ε Val :=
  match core input with
  | .ok r => ([.agentStart agent "execute" input, .agentEnd agent], .ok r)
  | .error e => ([.agentStart agent "execute" input, .agentError agent "execute"], .error e)

/-- The research prompt template of `ResearchAgent.execute`. -/
def research_prompt (input_data : String) : String :=
  "Research and provide comprehensive information about: " ++ input_data ++
  "\n        Include:\n        - Key findings\n        - Relevant data points\n        - Sources and references"

/-- The `research_result` dict literal of `ResearchAgent.execute`. -/
def researchDict (input_data content : String) : Val :=
  .dict [("topic", .str input_data), ("findings", .str content),
         ("research_type", .str "comprehensive")]

/-- Body of `ResearchAgent.execute` (src/agents.py): invoke the client on the
research prompt and shape the result dict. -/
def ResearchAgent.executeCore {ε : Type} (llm : String → Except ε String)
    (input_data : String) : Except ε Val :=
  match llm (research_prompt input_data) with
  | .error e => .error e
  | .ok content => .ok (researchDict input_data content)

/-- `ResearchAgent.execute` as decorated with `track_agent_performance("ResearchAgent")`. -/
def ResearchAgent.execute {ε : Type} (llm : String → Except ε String)
    (input_data : String) : List Event × Except ε Val :=
  trackedExecute "ResearchAgent" (ResearchAgent.executeCore llm) input_data

/-- `ResearchAgent.validate_output`: `isinstance(output, dict) and "findings" in output`. -/
def ResearchAgent.validate_output (output : Val) : Bool :=
  output.isDict && output.hasKey "findings"

/-- The analysis prompt template of `AnalysisAgent.execute`. -/
def analysis_prompt (input_data : String) : String :=
  "Analyze the following information and provide:\n        " ++ input_data ++
  "\n        \n        Include:\n        - Key insights\n        - Pattern identification\n        - Recommendations\n        - Risk assessment"

/-- The `analysis_result` dict literal of `AnalysisAgent.execute`: `input_summary`
echoes `input_data[:200]` and `confidence_score` is the literal 0.85. -/
def analysisDict (input_data content : String) : Val :=
  .dict [("input_summary", .str (pyTake input_data 200)),
         ("insights", .str content), ("confidence_score", .num 0.85)]

/-- Body of `AnalysisAgent.execute` (src/agents.py). -/
def AnalysisAgent.executeCore {ε : Type} (llm : String → Except ε String)
    (input_data : String) : Except ε Val :=
  match llm (analysis_prompt input_data) with
  | .error e => .error e
  | .ok content => .ok (analysisDict input_data content)

/-- `AnalysisAgent.execute` as decorated with `track_agent_performance("AnalysisAgent")`. -/
def AnalysisAgent.execute {ε : Type} (llm : String → Except ε String)
    (input_data : String) : List Event × Except ε Val :=
  trackedExecute "AnalysisAgent" (AnalysisAgent.executeCore llm) input_data

/-- `AnalysisAgent.validate_output`: `isinstance(output, dict) and "insights" in output`. -/
def AnalysisAgent.validate_output (output : Val) : Bool :=
  output.isDict && output.hasKey "insights"

/-- The writing prompt template of `WriterAgent.execute`. -/
def writing_prompt (input_data : String) : String :=
  "Create a professional report based on:\n        " ++ input_data ++
  "\n        \n        Format:\n        - Executive Summary\n        - Detailed Findings\n        - Conclusions\n        - Next Steps"

/-- The `report` dict literal of `WriterAgent.execute`: `word_count` is
`len(response.content.split())`. -/
def writerDict (content : String) : Val :=
  .dict [("report_type", .str "professional"), ("content", .str content),
         ("word_count", .int (pySplit content).length),
         ("status", .str "completed")]

/-- Body of `WriterAgent.execute` (src/agents.py). -/
def WriterAgent.executeCore {ε : Type} (llm : String → Except ε String)
    (input_data : String) : Except ε Val :=
  match llm (writing_prompt input_data) with
  | .error e => .error e
  | .ok content => .ok (writerDict content)

/-- `WriterAgent.execute` as decorated with `track_agent_performance("WriterAgent")`. -/
def WriterAgent.execute {ε : Type} (llm : String → Except ε String)
    (input_data : String) : List Event × Except ε Val :=
  trackedExecute "WriterAgent" (WriterAgent.executeCore llm) input_data

/-- `WriterAgent.validate_output`: `isinstance(output, dict) and "content" in output`. -/
def WriterAgent.validate_output (output : Val) : Bool :=
  output.isDict && output.hasKey "content"

/-- The review prompt template of `ReviewAgent.execute`. -/
def review_prompt (input_data : String) : String :=
  "Review the following content and provide quality assessment:\n        " ++ input_data ++
  "\n        \n        Evaluate:\n        - Accuracy\n        - Clarity\n        - Completeness\n        - Professionalism\n        \n        Provide improvement suggestions."

/-- The `review` dict literal of `ReviewAgent.execute`: `quality_score` is the
constant literal 0.92 and `approved` the constant literal `True`, not computed from
the reviewed content. -/
def reviewDict (content : String) : Val :=
  .dict [("status", .str "reviewed"), ("quality_assessment", .str content),
         ("quality_score", .num 0.92), ("approved", .bool true)]

/-- Body of `ReviewAgent.execute` (src/agents.py). -/
def ReviewAgent.executeCore {ε : Type} (llm : String → Except ε String)
    (input_data : String) : Except ε Val :=
  match llm (review_prompt input_data) with
  | .error e => .error e
  | .ok content => .ok (reviewDict content)

/-- `ReviewAgent.execute` as decorated with `track_agent_performance("ReviewAgent")`. -/
def ReviewAgent.execute {ε : Type} (llm : String → Except ε String)
    (input_data : String) : List Event × Except ε Val :=
  trackedExecute "ReviewAgent" (ReviewAgent.executeCore llm) input_data

/-- `ReviewAgent.validate_output`: `isinstance(output, dict) and "quality_assessment" in output`. -/
def ReviewAgent.validate_output (output : Val) : Bool :=
  output.isDict && output.hasKey "quality_assessment"

/-- The four stage objects held by `AgentOrchestrator.__init__`: each is a function
from its string input to the telemetry it emits and its result or raised error. -/
structure Stages (ε : Type) where
  research : String → List Event × Except ε Val
  analysis : String → List Event × Except ε Val
  writer : String → List Event × Except ε Val
  review : String → List Event × Except ε Val

/-- The stages as actually constructed in `AgentOrchestrator.__init__`: the four
agents of src/agents.py, each over its own Completion Client. -/
def agentStages {ε : Type} (rl al wl vl : String → Except ε String) : Stages ε where
  research := ResearchAgent.execute rl
  analysis := AnalysisAgent.execute al
  writer := WriterAgent.execute wl
  review := ReviewAgent.execute vl

/-- The dict `workflow_result` assembled at the end of `execute_workflow`:
identifier, topic, the four stage-result dicts, and the performance dict
(an ordered association list, exactly as the Python dict literal is written). -/
structure WorkflowResult where
  workflow_id : String
  topic : String
  research_output : Val
  analysis_output : Val
  writing_output : Val
  review_output : Val
  performance : List (String × ℚ)

/-- `AgentOrchestrator.execute_workflow` (src/orchestrator.py): run the four stages
strictly in order, feeding each stage's primary field (via `.get(key, "")`) as the
next stage's input, timing each stage and the whole pipeline from `clock`, and
appending the assembled `WorkflowResult` to the history. Returns the result (or the
first stage's error, unchanged), the history after the call, and the telemetry
emitted. A failed stage aborts immediately: the history is returned unchanged and no
later stage runs. -/
def execute_workflow {ε : Type} (stages : Stages ε) (clock : Nat → ℚ)
    (history : List WorkflowResult) (topic : String) :
    Except ε WorkflowResult × List WorkflowResult × List Event :=
  let workflow_start := clock 0
  let workflow_id := "workflow_" ++ toString ⌊clock 1⌋
  let (ev1, r1) := stages.research topic
  match r1 with
  | .error e => (.error e, history, ev1)
  | .ok research_result =>
    let research_time := (clock 3 - clock 2) * 1000
    let evR := ev1 ++ [Event.metrics "ResearchAgent" [("execution_time_ms", research_time)]]
    let (ev2, r2) := stages.analysis (getFieldD research_result "findings")
    match r2 with
    | .error e => (.error e, history, evR ++ ev2)
    | .ok analysis_result =>
      let analysis_time := (clock 5 - clock 4) * 1000
      let evA := evR ++ ev2 ++ [Event.metrics "AnalysisAgent" [("execution_time_ms", analysis_time)]]
      let (ev3, r3) := stages.writer (getFieldD analysis_result "insights")
      match r3 with
      | .error e => (.error e, history, evA ++ ev3)
      | .ok writing_result =>
        let writing_time := (clock 7 - clock 6) * 1000
        let evW := evA ++ ev3 ++ [Event.metrics "WriterAgent" [("execution_time_ms", writing_time)]]
        let (ev4, r4) := stages.review (getFieldD writing_result "content")
        match r4 with
        | .error e => (.error e, history, evW ++ ev4)
        | .ok review_result =>
          let review_time := (clock 9 - clock 8) * 1000
          let evV := evW ++ ev4 ++ [Event.metrics "ReviewAgent" [("execution_time_ms", review_time)]]
          let total_workflow_time := (clock 10 - workflow_start) * 1000
          let perf : List (String × ℚ) :=
            [("research_time_ms", research_time), ("analysis_time_ms", analysis_time),
             ("writing_time_ms", writing_time), ("review_time_ms", review_time),
             ("total_time_ms", total_workflow_time)]
          let workflow_result : WorkflowResult :=
            { workflow_id := workflow_id, topic := topic,
              research_output := research_result, analysis_output := analysis_result,
              writing_output := writing_result, review_output := review_result,
              performance := perf }
          (.ok workflow_result, history ++ [workflow_result],
           evV ++ [Event.metrics "Orchestrator" perf])

/-- The return shape of `get_workflow_statistics`: either the "no workflows" message
dict or the statistics dict. -/
inductive Statistics where
  | message (s : String)
  | stats (total_workflows : Nat) (average_workflow_time_ms : ℚ) (workflows : List String)
deriving DecidableEq

/-- The generator `w["performance"]["total_time_ms"] for w in self.workflow_history`
inside `get_workflow_statistics`: the subscript raises `KeyError` on a dict lacking
the key; a raised `KeyError` is modelled as `none` (it never occurs on histories
built by `execute_workflow`). -/
def lookupTotals : List WorkflowResult → Option (List ℚ)
  | [] => some []
  | w :: ws =>
      match w.performance.lookup "total_time_ms", lookupTotals ws with
      | some t, some ts => some (t :: ts)
      | _, _ => none

/-- `AgentOrchestrator.get_workflow_statistics`: the "no workflows" marker on an
empty history, otherwise the count, the mean of the `total_time_ms` entries and the
ordered identifiers. A pure read: the history is a plain argument and is not
modified. -/
def get_workflow_statistics (history : List WorkflowResult) : Option Statistics :=
  match history with
  | [] => some (.message "No workflows completed yet")
  | _ =>
    let total_workflows := history.length
    match lookupTotals history with
    | none => none
    | some totals =>
        some (.stats total_workflows (totals.sum / total_workflows)
          (history.map fun w => w.workflow_id))

/-- Python's `s.lower()`: lowercase the string character by character (defined by
structural recursion over the character list so that proofs can evaluate it). -/
def pyLower (s : String) : String :=
  ⟨s.data.map Char.toLower⟩

/-- The return shape of `get_agent_performance`: either the "no data" message dict
or the per-agent statistics dict. -/
inductive PerAgentStats where
  | message (s : String)
  | stats (agent : String) (executions : Nat)
      (average_time_ms min_time_ms max_time_ms : ℚ)
deriving DecidableEq

/-- `AgentOrchestrator.get_agent_performance`: derive the timing key by lowercasing
the agent name and appending `"_time_ms"`, collect that key's value from every
history entry whose performance dict contains it, and return the "no data" marker
when none matched, else count, mean, `min(times)` and `max(times)`. A pure read. -/
def get_agent_performance (history : List WorkflowResult) (agent_name : String) :
    PerAgentStats :=
  let agent_key := pyLower agent_name ++ "_time_ms"
  let times := history.filterMap fun w => w.performance.lookup agent_key
  match times with
  | [] => .message ("No data for " ++ agent_name)
  | t :: ts =>
      .stats agent_name (t :: ts).length ((t :: ts).sum / (t :: ts).length)
        (ts.foldl min t) (ts.foldl max t)

/-- The performance dict assembled by a successful `execute_workflow` run under
clock `clock`, exactly as the Python dict literal is written. -/
def successPerf (clock : Nat → ℚ) : List (String × ℚ) :=
  [("research_time_ms", (clock 3 - clock 2) * 1000),
   ("analysis_time_ms", (clock 5 - clock 4) * 1000),
   ("writing_time_ms", (clock 7 - clock 6) * 1000),
   ("review_time_ms", (clock 9 - clock 8) * 1000),
   ("total_time_ms", (clock 10 - clock 0) * 1000)]

/-- The `WorkflowResult` of a successful run where the four Completion Client calls
returned `f`, `a`, `c` and `q` respectively. -/
def successResult (clock : Nat → ℚ) (topic f a c q : String) : WorkflowResult :=
  { workflow_id := "workflow_" ++ toString ⌊clock 1⌋, topic := topic,
    research_output := researchDict topic f,
    analysis_output := analysisDict f a,
    writing_output := writerDict c,
    review_output := reviewDict q,
    performance := successPerf clock }

/-- The telemetry of a successful run: for each stage in pipeline order, the
decorator's start and end events and the orchestrator's per-stage metrics event,
then the orchestrator's whole-workflow metrics event. -/
def successTrace (clock : Nat → ℚ) (topic f a c : String) : List Event :=
  [.agentStart "ResearchAgent" "execute" topic, .agentEnd "ResearchAgent",
   .metrics "ResearchAgent" [("execution_time_ms", (clock 3 - clock 2) * 1000)],
   .agentStart "AnalysisAgent" "execute" f, .agentEnd "AnalysisAgent",
   .metrics "AnalysisAgent" [("execution_time_ms", (clock 5 - clock 4) * 1000)],
   .agentStart "WriterAgent" "execute" a, .agentEnd "WriterAgent",
   .metrics "WriterAgent" [("execution_time_ms", (clock 7 - clock 6) * 1000)],
   .agentStart "ReviewAgent" "execute" c, .agentEnd "ReviewAgent",
   .metrics "ReviewAgent" [("execution_time_ms", (clock 9 - clock 8) * 1000)],
   .metrics "Orchestrator" (successPerf clock)]

/-- The stage-invocation record of a telemetry stream: the agent name and the input
argument of each agent-start event, in emission order. -/
def startEvents (evs : List Event) : List (String × String) :=
  evs.filterMap fun e =>
    match e with
    | .agentStart agent _ input => some (agent, input)
    | _ => none

/-- Python's dict subscript `r[key]` on a stage-result value: `some` the stored
value, `none` when the key is absent or the value is not a dict. -/
def Val.lookup (v : Val) (key : String) : Option Val :=
  match v with
  | .dict fields => fields.lookup key
  | _ => none

/-- Four stage functions, each decorated with `track_agent_performance` exactly as
the four agents of src/agents.py are, but with arbitrary bodies. -/
def trackedStages {ε : Type} (rc ac wc vc : String → Except ε Val) : Stages ε :=
  ⟨trackedExecute "ResearchAgent" rc, trackedExecute "AnalysisAgent" ac,
   trackedExecute "WriterAgent" wc, trackedExecute "ReviewAgent" vc⟩

/-- A handcrafted history entry carrying only timing data, for exercising the
statistics readers on explicit timing values. -/
def timingOnlyRun (id_str : String) (t : ℚ) : WorkflowResult :=
  ⟨id_str, "T", .dict [], .dict [], .dict [], .dict [],
   [("research_time_ms", t), ("total_time_ms", t)]⟩

theorem getFieldD_researchDict (input content : String) :
    getFieldD (researchDict input content) "findings" = content := rfl

theorem getFieldD_analysisDict (input content : String) :
    getFieldD (analysisDict input content) "insights" = content := rfl

theorem getFieldD_writerDict (content : String) :
    getFieldD (writerDict content) "content" = content := rfl

theorem execute_workflow_ok {ε : Type} (rl al wl vl : String → Except ε String)
    (clock : Nat → ℚ) (history : List WorkflowResult) (topic f a c q : String)
    (hr : rl (research_prompt topic) = .ok f)
    (ha : al (analysis_prompt f) = .ok a)
    (hw : wl (writing_prompt a) = .ok c)
    (hv : vl (review_prompt c) = .ok q) :
    execute_workflow (agentStages rl al wl vl) clock history topic =
      (.ok (successResult clock topic f a c q),
       history ++ [successResult clock topic f a c q],
       successTrace clock topic f a c) := by
  simp only [execute_workflow, agentStages, ResearchAgent.execute,
    AnalysisAgent.execute, WriterAgent.execute, ReviewAgent.execute, trackedExecute,
    ResearchAgent.executeCore, AnalysisAgent.executeCore, WriterAgent.executeCore,
    ReviewAgent.executeCore, hr, getFieldD_researchDict, ha, getFieldD_analysisDict,
    hw, getFieldD_writerDict, hv, successResult, successTrace, successPerf]
  simp

theorem foldl_min_mem (t : ℚ) (ts : List ℚ) : ts.foldl min t ∈ t :: ts := by
  induction ts generalizing t with
  | nil => simp
  | cons u us ih =>
    show us.foldl min (min t u) ∈ t :: u :: us
    rcases List.mem_cons.mp (ih (min t u)) with h1 | h2
    · rw [h1]
      rcases min_choice t u with hc | hc
      · rw [hc]; exact List.mem_cons_self t _
      · rw [hc]; exact List.mem_cons_of_mem t (List.mem_cons_self u us)
    · exact List.mem_cons_of_mem t (List.mem_cons_of_mem u h2)

theorem foldl_min_le (t : ℚ) (ts : List ℚ) : ∀ x ∈ t :: ts, ts.foldl min t ≤ x := by
  induction ts generalizing t with
  | nil =>
    intro x hx
    rw [List.mem_singleton] at hx
    simp [hx]
  | cons u us ih =>
    intro x hx
    show us.foldl min (min t u) ≤ x
    rcases List.mem_cons.mp hx with h1 | hx2
    · rw [h1]
      exact le_trans (ih (min t u) (min t u) (List.mem_cons_self _ _)) (min_le_left t u)
    · rcases List.mem_cons.mp hx2 with h1 | hx3
      · rw [h1]
        exact le_trans (ih (min t u) (min t u) (List.mem_cons_self _ _)) (min_le_right t u)
      · exact ih (min t u) x (List.mem_cons_of_mem _ hx3)

theorem foldl_max_mem (t : ℚ) (ts : List ℚ) : ts.foldl max t ∈ t :: ts := by
  induction ts generalizing t with
  | nil => simp
  | cons u us ih =>
    show us.foldl max (max t u) ∈ t :: u :: us
    rcases List.mem_cons.mp (ih (max t u)) with h1 | h2
    · rw [h1]
      rcases max_choice t u with hc | hc
      · rw [hc]; exact List.mem_cons_self t _
      · rw [hc]; exact List.mem_cons_of_mem t (List.mem_cons_self u us)
    · exact List.mem_cons_of_mem t (List.mem_cons_of_mem u h2)

theorem foldl_max_ge (t : ℚ) (ts : List ℚ) : ∀ x ∈ t :: ts, x ≤ ts.foldl max t := by
  induction ts generalizing t with
  | nil =>
    intro x hx
    rw [List.mem_singleton] at hx
    simp [hx]
  | cons u us ih =>
    intro x hx
    show x ≤ us.foldl max (max t u)
    rcases List.mem_cons.mp hx with h1 | hx2
    · rw [h1]
      exact le_trans (le_max_left t u) (ih (max t u) (max t u) (List.mem_cons_self _ _))
    · rcases List.mem_cons.mp hx2 with h1 | hx3
      · rw [h1]
        exact le_trans (le_max_right t u) (ih (max t u) (max t u) (List.mem_cons_self _ _))
      · exact ih (max t u) x (List.mem_cons_of_mem _ hx3)

theorem lookup_eq_none_of_not_mem_keys {β : Type} (key : String) :
    ∀ l : List (String × β), key ∉ l.map Prod.fst → l.lookup key = none := by
  intro l
  induction l with
  | nil => intro _; rfl
  | cons p l ih =>
    intro h
    obtain ⟨k, v⟩ := p
    simp only [List.map_cons, List.mem_cons, not_or] at h
    have hk : (key == k) = false := beq_eq_false_iff_ne.mpr h.1
    simp [List.lookup, hk, ih h.2]

theorem lookup_isSome_of_mem_keys {β : Type} (key : String) :
    ∀ l : List (String × β), key ∈ l.map Prod.fst → (l.lookup key).isSome = true := by
  intro l
  induction l with
  | nil => intro h; simp at h
  | cons p l ih =>
    intro h
    obtain ⟨k, v⟩ := p
    by_cases hk : key = k
    · subst hk; simp [List.lookup]
    · have hmem : key ∈ l.map Prod.fst := by
        simp only [List.map_cons, List.mem_cons] at h
        exact h.resolve_left hk
      have hbeq : (key == k) = false := beq_eq_false_iff_ne.mpr hk
      have hstep : List.lookup key ((k, v) :: l) = List.lookup key l := by
        simp only [List.lookup, hbeq]
      rw [hstep]
      exact ih hmem

theorem lookupTotals_length :
    ∀ (history : List WorkflowResult) (totals : List ℚ),
      lookupTotals history = some totals → totals.length = history.length := by
  intro history
  induction history with
  | nil =>
    intro totals h
    simp only [lookupTotals, Option.some.injEq] at h
    simp [← h]
  | cons w ws ih =>
    intro totals h
    simp only [lookupTotals] at h
    rcases h1 : w.performance.lookup "total_time_ms" with _ | t
    · rw [h1] at h; simp at h
    · rcases h2 : lookupTotals ws with _ | ts
      · rw [h1, h2] at h; simp at h
      · rw [h1, h2] at h
        simp only [Option.some.injEq] at h
        rw [← h]
        simp [ih ts h2]

theorem trackedExecute_ok {ε : Type} (agent : String) (core : String → Except ε Val)
    (input : String) (ev : List Event) (r : Val)
    (h : trackedExecute agent core input = (ev, .ok r)) :
    core input = .ok r ∧ ev = [.agentStart agent "execute" input, .agentEnd agent] := by
  unfold trackedExecute at h
  rcases hc : core input with e | d
  · rw [hc] at h; simp at h
  · rw [hc] at h
    simp only [Prod.mk.injEq, Except.ok.injEq] at h
    refine ⟨?_, h.1.symm⟩
    exact congrArg Except.ok h.2

theorem execute_workflow_cases {ε : Type} (st : Stages ε) (clock : Nat → ℚ)
    (history : List WorkflowResult) (topic : String) :
    (∃ e ev, execute_workflow st clock history topic = (.error e, history, ev)) ∨
    (∃ w ev, execute_workflow st clock history topic = (.ok w, history ++ [w], ev) ∧
      w.performance = successPerf clock) := by
  rcases hp1 : st.research topic with ⟨ev1, r1⟩
  cases r1 with
  | error e1 =>
    refine Or.inl ⟨e1, ev1, ?_⟩
    simp only [execute_workflow, hp1]
  | ok d1 =>
    rcases hp2 : st.analysis (getFieldD d1 "findings") with ⟨ev2, r2⟩
    cases r2 with
    | error e2 =>
      refine Or.inl ⟨e2,
        ev1 ++ [Event.metrics "ResearchAgent" [("execution_time_ms", (clock 3 - clock 2) * 1000)]] ++ ev2, ?_⟩
      simp only [execute_workflow, hp1, hp2]
    | ok d2 =>
      rcases hp3 : st.writer (getFieldD d2 "insights") with ⟨ev3, r3⟩
      cases r3 with
      | error e3 =>
        refine Or.inl ⟨e3,
          ev1 ++ [Event.metrics "ResearchAgent" [("execution_time_ms", (clock 3 - clock 2) * 1000)]] ++ ev2
              ++ [Event.metrics "AnalysisAgent" [("execution_time_ms", (clock 5 - clock 4) * 1000)]] ++ ev3, ?_⟩
        simp only [execute_workflow, hp1, hp2, hp3]
      | ok d3 =>
        rcases hp4 : st.review (getFieldD d3 "content") with ⟨ev4, r4⟩
        cases r4 with
        | error e4 =>
          refine Or.inl ⟨e4,
            ev1 ++ [Event.metrics "ResearchAgent" [("execution_time_ms", (clock 3 - clock 2) * 1000)]] ++ ev2
                ++ [Event.metrics "AnalysisAgent" [("execution_time_ms", (clock 5 - clock 4) * 1000)]] ++ ev3
                ++ [Event.metrics "WriterAgent" [("execution_time_ms", (clock 7 - clock 6) * 1000)]] ++ ev4, ?_⟩
          simp only [execute_workflow, hp1, hp2, hp3, hp4]
        | ok d4 =>
          refine Or.inr ⟨⟨"workflow_" ++ toString ⌊clock 1⌋, topic, d1, d2, d3, d4, successPerf clock⟩,
            ev1 ++ [Event.metrics "ResearchAgent" [("execution_time_ms", (clock 3 - clock 2) * 1000)]] ++ ev2
                ++ [Event.metrics "AnalysisAgent" [("execution_time_ms", (clock 5 - clock 4) * 1000)]] ++ ev3
                ++ [Event.metrics "WriterAgent" [("execution_time_ms", (clock 7 - clock 6) * 1000)]] ++ ev4
                ++ [Event.metrics "ReviewAgent" [("execution_time_ms", (clock 9 - clock 8) * 1000)]]
                ++ [Event.metrics "Orchestrator" (successPerf clock)], ?_, rfl⟩
          simp only [execute_workflow, hp1, hp2, hp3, hp4, successPerf]

/-- C1: for every topic, a fully successful `execute_workflow` invokes the four
stages exactly once each, strictly in the order Research, Analysis, Writer, Review
(the trace's agent-start events are exactly these four, in this order), and the
designated primary field of stage k's result is passed verbatim and alone as stage
k+1's input: Analysis is invoked with exactly the research result's `findings`
value `f`, Writer with exactly the analysis result's `insights` value `a`, and
Review with exactly the writing result's `content` value `c`. -/
theorem workflow_stage_order_and_verbatim_handoff {ε : Type}
    (rl al wl vl : String → Except ε String) (clock : Nat → ℚ)
    (history : List WorkflowResult) (topic f a c q : String)
    (hr : rl (research_prompt topic) = .ok f)
    (ha : al (analysis_prompt f) = .ok a)
    (hw : wl (writing_prompt a) = .ok c)
    (hv : vl (review_prompt c) = .ok q) :
    startEvents (execute_workflow (agentStages rl al wl vl) clock history topic).2.2 =
      [("ResearchAgent", topic), ("AnalysisAgent", f), ("WriterAgent", a),
       ("ReviewAgent", c)] ∧
    (execute_workflow (agentStages rl al wl vl) clock history topic).1 =
      .ok (successResult clock topic f a c q) ∧
    getFieldD (successResult clock topic f a c q).research_output "findings" = f ∧
    getFieldD (successResult clock topic f a c q).analysis_output "insights" = a ∧
    getFieldD (successResult clock topic f a c q).writing_output "content" = c := by
  rw [execute_workflow_ok rl al wl vl clock history topic f a c q hr ha hw hv]
  exact ⟨rfl, rfl, rfl, rfl, rfl⟩

/-- Witness for C1 at a concrete run: topic "T", stub clients returning "F", "A",
"C", "Q". -/
theorem workflow_stage_order_and_verbatim_handoff_witness :
    startEvents (execute_workflow (agentStages (fun _ => (Except.ok "F" : Except Unit String))
        (fun _ => Except.ok "A") (fun _ => Except.ok "C") (fun _ => Except.ok "Q"))
        (fun i => (i : ℚ)) [] "T").2.2 =
      [("ResearchAgent", "T"), ("AnalysisAgent", "F"), ("WriterAgent", "A"),
       ("ReviewAgent", "C")] ∧
    (execute_workflow (agentStages (fun _ => (Except.ok "F" : Except Unit String))
        (fun _ => Except.ok "A") (fun _ => Except.ok "C") (fun _ => Except.ok "Q"))
        (fun i => (i : ℚ)) [] "T").1 =
      .ok (successResult (fun i => (i : ℚ)) "T" "F" "A" "C" "Q") ∧
    getFieldD (successResult (fun i => (i : ℚ)) "T" "F" "A" "C" "Q").research_output "findings" = "F" ∧
    getFieldD (successResult (fun i => (i : ℚ)) "T" "F" "A" "C" "Q").analysis_output "insights" = "A" ∧
    getFieldD (successResult (fun i => (i : ℚ)) "T" "F" "A" "C" "Q").writing_output "content" = "C" :=
  workflow_stage_order_and_verbatim_handoff (fun _ => Except.ok "F") (fun _ => Except.ok "A")
    (fun _ => Except.ok "C") (fun _ => Except.ok "Q") (fun i => (i : ℚ)) [] "T" "F" "A" "C" "Q"
    rfl rfl rfl rfl

/-- C2: for each of the four stage positions independently, if the Completion
Client call inside that stage raises error `e`, then `execute_workflow` returns
exactly that error value (no wrapping), the run history is unchanged, and the
telemetry shows no later stage was invoked (its last event is the failing stage's
error event, with no agent-start event of any later stage). -/
theorem workflow_error_propagation_per_stage {ε : Type}
    (rl al wl vl : String → Except ε String) (clock : Nat → ℚ)
    (history : List WorkflowResult) (topic : String) (e : ε) :
    (rl (research_prompt topic) = .error e →
      execute_workflow (agentStages rl al wl vl) clock history topic =
        (.error e, history,
         [.agentStart "ResearchAgent" "execute" topic,
          .agentError "ResearchAgent" "execute"])) ∧
    (∀ f, rl (research_prompt topic) = .ok f → al (analysis_prompt f) = .error e →
      execute_workflow (agentStages rl al wl vl) clock history topic =
        (.error e, history,
         [.agentStart "ResearchAgent" "execute" topic, .agentEnd "ResearchAgent",
          .metrics "ResearchAgent" [("execution_time_ms", (clock 3 - clock 2) * 1000)],
          .agentStart "AnalysisAgent" "execute" f,
          .agentError "AnalysisAgent" "execute"])) ∧
    (∀ f a, rl (research_prompt topic) = .ok f → al (analysis_prompt f) = .ok a →
      wl (writing_prompt a) = .error e →
      execute_workflow (agentStages rl al wl vl) clock history topic =
        (.error e, history,
         [.agentStart "ResearchAgent" "execute" topic, .agentEnd "ResearchAgent",
          .metrics "ResearchAgent" [("execution_time_ms", (clock 3 - clock 2) * 1000)],
          .agentStart "AnalysisAgent" "execute" f, .agentEnd "AnalysisAgent",
          .metrics "AnalysisAgent" [("execution_time_ms", (clock 5 - clock 4) * 1000)],
          .agentStart "WriterAgent" "execute" a,
          .agentError "WriterAgent" "execute"])) ∧
    (∀ f a c, rl (research_prompt topic) = .ok f → al (analysis_prompt f) = .ok a →
      wl (writing_prompt a) = .ok c → vl (review_prompt c) = .error e →
      execute_workflow (agentStages rl al wl vl) clock history topic =
        (.error e, history,
         [.agentStart "ResearchAgent" "execute" topic, .agentEnd "ResearchAgent",
          .metrics "ResearchAgent" [("execution_time_ms", (clock 3 - clock 2) * 1000)],
          .agentStart "AnalysisAgent" "execute" f, .agentEnd "AnalysisAgent",
          .metrics "AnalysisAgent" [("execution_time_ms", (clock 5 - clock 4) * 1000)],
          .agentStart "WriterAgent" "execute" a, .agentEnd "WriterAgent",
          .metrics "WriterAgent" [("execution_time_ms", (clock 7 - clock 6) * 1000)],
          .agentStart "ReviewAgent" "execute" c,
          .agentError "ReviewAgent" "execute"])) := by
  refine ⟨?_, ?_, ?_, ?_⟩
  · intro hr
    simp [execute_workflow, agentStages, ResearchAgent.execute, trackedExecute,
      ResearchAgent.executeCore, hr]
  · intro f hr ha
    simp [execute_workflow, agentStages, ResearchAgent.execute, AnalysisAgent.execute,
      trackedExecute, ResearchAgent.executeCore, AnalysisAgent.executeCore, hr, ha,
      getFieldD_researchDict]
  · intro f a hr ha hw
    simp [execute_workflow, agentStages, ResearchAgent.execute, AnalysisAgent.execute,
      WriterAgent.execute, trackedExecute, ResearchAgent.executeCore,
      AnalysisAgent.executeCore, WriterAgent.executeCore, hr, ha, hw,
      getFieldD_researchDict, getFieldD_analysisDict]
  · intro f a c hr ha hw hv
    simp [execute_workflow, agentStages, ResearchAgent.execute, AnalysisAgent.execute,
      WriterAgent.execute, ReviewAgent.execute, trackedExecute, ResearchAgent.executeCore,
      AnalysisAgent.executeCore, WriterAgent.executeCore, ReviewAgent.executeCore,
      hr, ha, hw, hv, getFieldD_researchDict, getFieldD_analysisDict, getFieldD_writerDict]

/-- Witness for C2: each of the four stage positions exercised with a stub client
raising the error value `()` at exactly that stage. -/
theorem workflow_error_propagation_per_stage_witness :
    (execute_workflow (agentStages (fun _ => (Except.error () : Except Unit String))
        (fun _ => Except.ok "A") (fun _ => Except.ok "C") (fun _ => Except.ok "Q"))
        (fun i => (i : ℚ)) [] "T" =
      (.error (), [],
       [.agentStart "ResearchAgent" "execute" "T",
        .agentError "ResearchAgent" "execute"])) ∧
    (execute_workflow (agentStages (fun _ => (Except.ok "F" : Except Unit String))
        (fun _ => Except.error ()) (fun _ => Except.ok "C") (fun _ => Except.ok "Q"))
        (fun i => (i : ℚ)) [] "T" =
      (.error (), [],
       [.agentStart "ResearchAgent" "execute" "T", .agentEnd "ResearchAgent",
        .metrics "ResearchAgent" [("execution_time_ms", ((3 : ℚ) - 2) * 1000)],
        .agentStart "AnalysisAgent" "execute" "F",
        .agentError "AnalysisAgent" "execute"])) ∧
    (execute_workflow (agentStages (fun _ => (Except.ok "F" : Except Unit String))
        (fun _ => Except.ok "A") (fun _ => Except.error ()) (fun _ => Except.ok "Q"))
        (fun i => (i : ℚ)) [] "T" =
      (.error (), [],
       [.agentStart "ResearchAgent" "execute" "T", .agentEnd "ResearchAgent",
        .metrics "ResearchAgent" [("execution_time_ms", ((3 : ℚ) - 2) * 1000)],
        .agentStart "AnalysisAgent" "execute" "F", .agentEnd "AnalysisAgent",
        .metrics "AnalysisAgent" [("execution_time_ms", ((5 : ℚ) - 4) * 1000)],
        .agentStart "WriterAgent" "execute" "A",
        .agentError "WriterAgent" "execute"])) ∧
    (execute_workflow (agentStages (fun _ => (Except.ok "F" : Except Unit String))
        (fun _ => Except.ok "A") (fun _ => Except.ok "C") (fun _ => Except.error ()))
        (fun i => (i : ℚ)) [] "T" =
      (.error (), [],
       [.agentStart "ResearchAgent" "execute" "T", .agentEnd "ResearchAgent",
        .metrics "ResearchAgent" [("execution_time_ms", ((3 : ℚ) - 2) * 1000)],
        .agentStart "AnalysisAgent" "execute" "F", .agentEnd "AnalysisAgent",
        .metrics "AnalysisAgent" [("execution_time_ms", ((5 : ℚ) - 4) * 1000)],
        .agentStart "WriterAgent" "execute" "A", .agentEnd "WriterAgent",
        .metrics "WriterAgent" [("execution_time_ms", ((7 : ℚ) - 6) * 1000)],
        .agentStart "ReviewAgent" "execute" "C",
        .agentError "ReviewAgent" "execute"])) :=
  ⟨(workflow_error_propagation_per_stage (fun _ => Except.error ()) (fun _ => Except.ok "A")
      (fun _ => Except.ok "C") (fun _ => Except.ok "Q") (fun i => (i : ℚ)) [] "T" ()).1 rfl,
   ((workflow_error_propagation_per_stage (fun _ => Except.ok "F") (fun _ => Except.error ())
      (fun _ => Except.ok "C") (fun _ => Except.ok "Q") (fun i => (i : ℚ)) [] "T" ()).2.1 "F" rfl rfl),
   ((workflow_error_propagation_per_stage (fun _ => Except.ok "F") (fun _ => Except.ok "A")
      (fun _ => Except.error ()) (fun _ => Except.ok "Q") (fun i => (i : ℚ)) [] "T" ()).2.2.1 "F" "A" rfl rfl rfl),
   ((workflow_error_propagation_per_stage (fun _ => Except.ok "F") (fun _ => Except.ok "A")
      (fun _ => Except.ok "C") (fun _ => Except.error ()) (fun i => (i : ℚ)) [] "T" ()).2.2.2 "F" "A" "C" rfl rfl rfl rfl)⟩

/-- C3: `get_workflow_statistics` on an empty Run History returns the "no
workflows" message record (not an empty list, not a failure); on a history of
N ≥ 1 recorded runs it returns the count N, the arithmetic mean of the N recorded
`total_time_ms` values and the insertion-ordered run identifiers; and every result
of a successful `execute_workflow` records `total_time_ms`, so the lookups never
fail on real histories. The embedding's `get_workflow_statistics` is a pure
function of the history, so the history is not mutated. -/
theorem workflow_statistics_marker_count_and_mean
    (history : List WorkflowResult) (totals : List ℚ)
    (hne : history ≠ [])
    (hm : lookupTotals history = some totals) :
    get_workflow_statistics [] = some (.message "No workflows completed yet") ∧
    get_workflow_statistics history =
      some (.stats history.length (totals.sum / history.length)
        (history.map fun w => w.workflow_id)) ∧
    totals.length = history.length ∧
    (∀ {ε : Type} (st : Stages ε) (clock : Nat → ℚ) (h : List WorkflowResult)
      (topic : String) (w : WorkflowResult) (h2 : List WorkflowResult) (ev : List Event),
      execute_workflow st clock h topic = (.ok w, h2, ev) →
      w.performance.lookup "total_time_ms" = some ((clock 10 - clock 0) * 1000)) := by
  refine ⟨rfl, ?_, lookupTotals_length history totals hm, ?_⟩
  · cases history with
    | nil => exact absurd rfl hne
    | cons w ws =>
      simp only [get_workflow_statistics, hm]
  · intro ε st clock h topic w h2 ev hrun
    rcases execute_workflow_cases st clock h topic with ⟨e, ev2, heq⟩ | ⟨w2, ev2, heq, hperf⟩
    · rw [heq] at hrun
      simp at hrun
    · rw [heq] at hrun
      simp only [Prod.mk.injEq, Except.ok.injEq] at hrun
      rw [← hrun.1, hperf]
      rfl

/-- Witness for C3: the empty history, and a one-run history produced under the
clock i ↦ i (one recorded total of (10 - 0) * 1000 ms). -/
theorem workflow_statistics_marker_count_and_mean_witness :
    get_workflow_statistics [] = some (.message "No workflows completed yet") ∧
    get_workflow_statistics [successResult (fun i => (i : ℚ)) "T" "F" "A" "C" "Q"] =
      some (.stats [successResult (fun i => (i : ℚ)) "T" "F" "A" "C" "Q"].length
        (([((fun i => (i : ℚ)) 10 - (fun i => (i : ℚ)) 0) * 1000].sum /
          [successResult (fun i => (i : ℚ)) "T" "F" "A" "C" "Q"].length))
        ([successResult (fun i => (i : ℚ)) "T" "F" "A" "C" "Q"].map fun w => w.workflow_id)) ∧
    [((fun i => (i : ℚ)) 10 - (fun i => (i : ℚ)) 0) * 1000].length =
      [successResult (fun i => (i : ℚ)) "T" "F" "A" "C" "Q"].length ∧
    (successResult (fun i => (i : ℚ)) "T" "F" "A" "C" "Q").performance.lookup "total_time_ms" =
      some (((fun i => (i : ℚ)) 10 - (fun i => (i : ℚ)) 0) * 1000) := by
  have h := workflow_statistics_marker_count_and_mean
    [successResult (fun i => (i : ℚ)) "T" "F" "A" "C" "Q"]
    [((fun i => (i : ℚ)) 10 - (fun i => (i : ℚ)) 0) * 1000]
    (by simp) rfl
  exact ⟨h.1, h.2.1, h.2.2.1,
    h.2.2.2 (agentStages (fun _ => (Except.ok "F" : Except Unit String))
        (fun _ => Except.ok "A") (fun _ => Except.ok "C") (fun _ => Except.ok "Q"))
      (fun i => (i : ℚ)) [] "T" (successResult (fun i => (i : ℚ)) "T" "F" "A" "C" "Q")
      [successResult (fun i => (i : ℚ)) "T" "F" "A" "C" "Q"]
      (successTrace (fun i => (i : ℚ)) "T" "F" "A" "C")
      (execute_workflow_ok (fun _ => Except.ok "F") (fun _ => Except.ok "A")
        (fun _ => Except.ok "C") (fun _ => Except.ok "Q") (fun i => (i : ℚ)) [] "T"
        "F" "A" "C" "Q" rfl rfl rfl rfl)⟩

/-- C4: `get_agent_performance` scans the history for the key obtained by
lowercasing the given name and appending `"_time_ms"`; with zero matching entries
it returns the "no data" marker, and with matching entries `t :: ts` it returns
their count, their arithmetic mean, and values that are exactly the minimum and
the maximum of the recorded values (a member that is a lower bound, and a member
that is an upper bound). -/
theorem agent_performance_marker_count_mean_min_max
    (history : List WorkflowResult) (agent_name : String) :
    (history.filterMap (fun w => w.performance.lookup (pyLower agent_name ++ "_time_ms")) = [] →
      get_agent_performance history agent_name =
        .message ("No data for " ++ agent_name)) ∧
    (∀ t ts,
      history.filterMap (fun w => w.performance.lookup (pyLower agent_name ++ "_time_ms")) = t :: ts →
      get_agent_performance history agent_name =
        .stats agent_name (t :: ts).length ((t :: ts).sum / (t :: ts).length)
          (ts.foldl min t) (ts.foldl max t) ∧
      ts.foldl min t ∈ t :: ts ∧ (∀ x ∈ t :: ts, ts.foldl min t ≤ x) ∧
      ts.foldl max t ∈ t :: ts ∧ (∀ x ∈ t :: ts, x ≤ ts.foldl max t)) := by
  constructor
  · intro hnil
    simp only [get_agent_performance, hnil]
  · intro t ts hcons
    refine ⟨?_, foldl_min_mem t ts, foldl_min_le t ts, foldl_max_mem t ts,
      foldl_max_ge t ts⟩
    simp only [get_agent_performance, hcons]

/-- Witness for C4: an empty history gives the "no data" marker, and recorded
research timings [10, 20, 30] give count 3, mean 20, min 10, max 30. -/
theorem agent_performance_marker_count_mean_min_max_witness :
    get_agent_performance [] "Research" = .message ("No data for " ++ "Research") ∧
    get_agent_performance
        [timingOnlyRun "w1" 10, timingOnlyRun "w2" 20, timingOnlyRun "w3" 30]
        "Research" = .stats "Research" 3 20 10 30 := by
  have h := agent_performance_marker_count_mean_min_max
    [timingOnlyRun "w1" 10, timingOnlyRun "w2" 20, timingOnlyRun "w3" 30] "Research"
  have h0 := (agent_performance_marker_count_mean_min_max [] "Research").1 rfl
  have h2 := (h.2 10 [20, 30] rfl).1
  refine ⟨h0, h2.trans ?_⟩
  norm_num [List.foldl, min_def, max_def]

theorem get_agent_performance_stats_of_key_mem
    (history : List WorkflowResult) (name : String)
    (hne : history ≠ [])
    (hmem : ∀ w ∈ history, pyLower name ++ "_time_ms" ∈ w.performance.map Prod.fst) :
    ∃ n avg mn mx, get_agent_performance history name = .stats name n avg mn mx := by
  cases history with
  | nil => exact absurd rfl hne
  | cons w0 ws =>
    have h0 := lookup_isSome_of_mem_keys (pyLower name ++ "_time_ms") w0.performance
      (hmem w0 (List.mem_cons_self _ _))
    obtain ⟨t, ht⟩ := Option.isSome_iff_exists.mp h0
    have hcons : (w0 :: ws).filterMap
        (fun w => w.performance.lookup (pyLower name ++ "_time_ms")) =
        t :: ws.filterMap (fun w => w.performance.lookup (pyLower name ++ "_time_ms")) := by
      simp [List.filterMap_cons, ht]
    have hres : get_agent_performance (w0 :: ws) name =
        .stats name
          (t :: ws.filterMap (fun w => w.performance.lookup (pyLower name ++ "_time_ms"))).length
          ((t :: ws.filterMap (fun w => w.performance.lookup (pyLower name ++ "_time_ms"))).sum /
            (t :: ws.filterMap (fun w => w.performance.lookup (pyLower name ++ "_time_ms"))).length)
          ((ws.filterMap (fun w => w.performance.lookup (pyLower name ++ "_time_ms"))).foldl min t)
          ((ws.filterMap (fun w => w.performance.lookup (pyLower name ++ "_time_ms"))).foldl max t) := by
      simp only [get_agent_performance, hcons]
    exact ⟨_, _, _, _, hres⟩

/-- C5: every successful run stores exactly the timing keys `research_time_ms`,
`analysis_time_ms`, `writing_time_ms`, `review_time_ms`, `total_time_ms`; since the
Writer stage's stored key ("writing") does not match the agent name "Writer" under
the lowercase-and-suffix derivation ("writer_time_ms"), on any history whose
entries all carry exactly the stored keys `get_agent_performance "Writer"` returns
the "no data" marker, while "Research", "Analysis" and "Review" each match their
stored key and return a statistics record whenever the history is nonempty. -/
theorem writer_name_key_mismatch
    (history : List WorkflowResult)
    (hkeys : ∀ w ∈ history, w.performance.map Prod.fst =
      ["research_time_ms", "analysis_time_ms", "writing_time_ms",
       "review_time_ms", "total_time_ms"]) :
    get_agent_performance history "Writer" = .message "No data for Writer" ∧
    (history ≠ [] →
      (∃ n avg mn mx,
        get_agent_performance history "Research" = .stats "Research" n avg mn mx) ∧
      (∃ n avg mn mx,
        get_agent_performance history "Analysis" = .stats "Analysis" n avg mn mx) ∧
      (∃ n avg mn mx,
        get_agent_performance history "Review" = .stats "Review" n avg mn mx)) ∧
    (∀ {ε : Type} (st : Stages ε) (clock : Nat → ℚ) (h : List WorkflowResult)
      (topic : String) (w : WorkflowResult) (h2 : List WorkflowResult) (ev : List Event),
      execute_workflow st clock h topic = (.ok w, h2, ev) →
      w.performance.map Prod.fst =
        ["research_time_ms", "analysis_time_ms", "writing_time_ms",
         "review_time_ms", "total_time_ms"]) := by
  refine ⟨?_, ?_, ?_⟩
  · have htimes : history.filterMap
        (fun w => w.performance.lookup (pyLower "Writer" ++ "_time_ms")) = [] := by
      rw [List.filterMap_eq_nil_iff]
      intro w hw
      apply lookup_eq_none_of_not_mem_keys
      rw [hkeys w hw]
      decide
    simp only [get_agent_performance, htimes]
    rfl
  · intro hne
    refine ⟨?_, ?_, ?_⟩
    · exact get_agent_performance_stats_of_key_mem history "Research" hne
        (fun w hw => by rw [hkeys w hw]; decide)
    · exact get_agent_performance_stats_of_key_mem history "Analysis" hne
        (fun w hw => by rw [hkeys w hw]; decide)
    · exact get_agent_performance_stats_of_key_mem history "Review" hne
        (fun w hw => by rw [hkeys w hw]; decide)
  · intro ε st clock h topic w h2 ev hrun
    rcases execute_workflow_cases st clock h topic with ⟨e, ev2, heq⟩ | ⟨w2, ev2, heq, hperf⟩
    · rw [heq] at hrun
      simp at hrun
    · rw [heq] at hrun
      simp only [Prod.mk.injEq, Except.ok.injEq] at hrun
      rw [← hrun.1, hperf]
      rfl

/-- Witness for C5: a one-run history produced by a successful workflow; "Writer"
gets the "no data" marker while the other three names return statistics. -/
theorem writer_name_key_mismatch_witness :
    get_agent_performance [successResult (fun i => (i : ℚ)) "T" "F" "A" "C" "Q"] "Writer" =
      .message "No data for Writer" ∧
    (∃ n avg mn mx, get_agent_performance
      [successResult (fun i => (i : ℚ)) "T" "F" "A" "C" "Q"] "Research" =
        .stats "Research" n avg mn mx) ∧
    (∃ n avg mn mx, get_agent_performance
      [successResult (fun i => (i : ℚ)) "T" "F" "A" "C" "Q"] "Analysis" =
        .stats "Analysis" n avg mn mx) ∧
    (∃ n avg mn mx, get_agent_performance
      [successResult (fun i => (i : ℚ)) "T" "F" "A" "C" "Q"] "Review" =
        .stats "Review" n avg mn mx) ∧
    (successResult (fun i => (i : ℚ)) "T" "F" "A" "C" "Q").performance.map Prod.fst =
      ["research_time_ms", "analysis_time_ms", "writing_time_ms",
       "review_time_ms", "total_time_ms"] := by
  have h := writer_name_key_mismatch
    [successResult (fun i => (i : ℚ)) "T" "F" "A" "C" "Q"]
    (by
      intro w hw
      rw [List.mem_singleton] at hw
      rw [hw]
      rfl)
  have hps := h.2.1 (by simp)
  exact ⟨h.1, hps.1, hps.2.1, hps.2.2,
    h.2.2 (agentStages (fun _ => (Except.ok "F" : Except Unit String))
        (fun _ => Except.ok "A") (fun _ => Except.ok "C") (fun _ => Except.ok "Q"))
      (fun i => (i : ℚ)) [] "T" (successResult (fun i => (i : ℚ)) "T" "F" "A" "C" "Q")
      [successResult (fun i => (i : ℚ)) "T" "F" "A" "C" "Q"]
      (successTrace (fun i => (i : ℚ)) "T" "F" "A" "C")
      (execute_workflow_ok (fun _ => Except.ok "F") (fun _ => Except.ok "A")
        (fun _ => Except.ok "C") (fun _ => Except.ok "Q") (fun i => (i : ℚ)) [] "T"
        "F" "A" "C" "Q" rfl rfl rfl rfl)⟩

theorem research_executeCore_ok {ε : Type} (llm : String → Except ε String)
    (input : String) (r : Val) (h : ResearchAgent.executeCore llm input = .ok r) :
    ∃ content, llm (research_prompt input) = .ok content ∧ r = researchDict input content := by
  unfold ResearchAgent.executeCore at h
  rcases hl : llm (research_prompt input) with e | content
  · rw [hl] at h; simp at h
  · rw [hl] at h
    injection h with h2
    exact ⟨content, rfl, h2.symm⟩

theorem analysis_executeCore_ok {ε : Type} (llm : String → Except ε String)
    (input : String) (r : Val) (h : AnalysisAgent.executeCore llm input = .ok r) :
    ∃ content, llm (analysis_prompt input) = .ok content ∧ r = analysisDict input content := by
  unfold AnalysisAgent.executeCore at h
  rcases hl : llm (analysis_prompt input) with e | content
  · rw [hl] at h; simp at h
  · rw [hl] at h
    injection h with h2
    exact ⟨content, rfl, h2.symm⟩

theorem writer_executeCore_ok {ε : Type} (llm : String → Except ε String)
    (input : String) (r : Val) (h : WriterAgent.executeCore llm input = .ok r) :
    ∃ content, llm (writing_prompt input) = .ok content ∧ r = writerDict content := by
  unfold WriterAgent.executeCore at h
  rcases hl : llm (writing_prompt input) with e | content
  · rw [hl] at h; simp at h
  · rw [hl] at h
    injection h with h2
    exact ⟨content, rfl, h2.symm⟩

theorem review_executeCore_ok {ε : Type} (llm : String → Except ε String)
    (input : String) (r : Val) (h : ReviewAgent.executeCore llm input = .ok r) :
    ∃ content, llm (review_prompt input) = .ok content ∧ r = reviewDict content := by
  unfold ReviewAgent.executeCore at h
  rcases hl : llm (review_prompt input) with e | content
  · rw [hl] at h; simp at h
  · rw [hl] at h
    injection h with h2
    exact ⟨content, rfl, h2.symm⟩

/-- C6: for each of the four stages, every successful `execute` returns a dict
containing that stage's designated primary field (`findings`, `insights`,
`content`, `quality_assessment`) on which `validate_output` returns true; and
`validate_output` is true exactly on dicts that contain the primary field, hence
false on every non-dict value and on every dict lacking the field. -/
theorem stage_execute_and_validate_output {ε : Type} :
    (∀ (llm : String → Except ε String) (input : String) (ev : List Event) (r : Val),
      ResearchAgent.execute llm input = (ev, .ok r) →
      r.isDict = true ∧ r.hasKey "findings" = true ∧
      ResearchAgent.validate_output r = true) ∧
    (∀ v : Val, ResearchAgent.validate_output v = true ↔
      ∃ fields, v = .dict fields ∧ (fields.lookup "findings").isSome = true) ∧
    (∀ (llm : String → Except ε String) (input : String) (ev : List Event) (r : Val),
      AnalysisAgent.execute llm input = (ev, .ok r) →
      r.isDict = true ∧ r.hasKey "insights" = true ∧
      AnalysisAgent.validate_output r = true) ∧
    (∀ v : Val, AnalysisAgent.validate_output v = true ↔
      ∃ fields, v = .dict fields ∧ (fields.lookup "insights").isSome = true) ∧
    (∀ (llm : String → Except ε String) (input : String) (ev : List Event) (r : Val),
      WriterAgent.execute llm input = (ev, .ok r) →
      r.isDict = true ∧ r.hasKey "content" = true ∧
      WriterAgent.validate_output r = true) ∧
    (∀ v : Val, WriterAgent.validate_output v = true ↔
      ∃ fields, v = .dict fields ∧ (fields.lookup "content").isSome = true) ∧
    (∀ (llm : String → Except ε String) (input : String) (ev : List Event) (r : Val),
      ReviewAgent.execute llm input = (ev, .ok r) →
      r.isDict = true ∧ r.hasKey "quality_assessment" = true ∧
      ReviewAgent.validate_output r = true) ∧
    (∀ v : Val, ReviewAgent.validate_output v = true ↔
      ∃ fields, v = .dict fields ∧ (fields.lookup "quality_assessment").isSome = true) := by
  refine ⟨?_, ?_, ?_, ?_, ?_, ?_, ?_, ?_⟩
  · intro llm input ev r h
    obtain ⟨hcore, hev⟩ := trackedExecute_ok "ResearchAgent" (ResearchAgent.executeCore llm) input ev r h
    obtain ⟨content, hl, hr⟩ := research_executeCore_ok llm input r hcore
    rw [hr]
    exact ⟨rfl, rfl, rfl⟩
  · intro v
    cases v <;> simp [ResearchAgent.validate_output, Val.isDict, Val.hasKey]
  · intro llm input ev r h
    obtain ⟨hcore, hev⟩ := trackedExecute_ok "AnalysisAgent" (AnalysisAgent.executeCore llm) input ev r h
    obtain ⟨content, hl, hr⟩ := analysis_executeCore_ok llm input r hcore
    rw [hr]
    exact ⟨rfl, rfl, rfl⟩
  · intro v
    cases v <;> simp [AnalysisAgent.validate_output, Val.isDict, Val.hasKey]
  · intro llm input ev r h
    obtain ⟨hcore, hev⟩ := trackedExecute_ok "WriterAgent" (WriterAgent.executeCore llm) input ev r h
    obtain ⟨content, hl, hr⟩ := writer_executeCore_ok llm input r hcore
    rw [hr]
    exact ⟨rfl, rfl, rfl⟩
  · intro v
    cases v <;> simp [WriterAgent.validate_output, Val.isDict, Val.hasKey]
  · intro llm input ev r h
    obtain ⟨hcore, hev⟩ := trackedExecute_ok "ReviewAgent" (ReviewAgent.executeCore llm) input ev r h
    obtain ⟨content, hl, hr⟩ := review_executeCore_ok llm input r hcore
    rw [hr]
    exact ⟨rfl, rfl, rfl⟩
  · intro v
    cases v <;> simp [ReviewAgent.validate_output, Val.isDict, Val.hasKey]

/-- Witness for C6: concrete successful stage results validate to true; a string
and a field-less dict validate to false, for each stage. -/
theorem stage_execute_and_validate_output_witness :
    ((researchDict "T" "F").isDict = true ∧ (researchDict "T" "F").hasKey "findings" = true ∧
      ResearchAgent.validate_output (researchDict "T" "F") = true) ∧
    ResearchAgent.validate_output (Val.str "x") = false ∧
    ResearchAgent.validate_output (Val.dict []) = false ∧
    ((analysisDict "F" "A").isDict = true ∧ (analysisDict "F" "A").hasKey "insights" = true ∧
      AnalysisAgent.validate_output (analysisDict "F" "A") = true) ∧
    AnalysisAgent.validate_output (Val.str "x") = false ∧
    AnalysisAgent.validate_output (Val.dict []) = false ∧
    ((writerDict "C").isDict = true ∧ (writerDict "C").hasKey "content" = true ∧
      WriterAgent.validate_output (writerDict "C") = true) ∧
    WriterAgent.validate_output (Val.str "x") = false ∧
    WriterAgent.validate_output (Val.dict []) = false ∧
    ((reviewDict "Q").isDict = true ∧ (reviewDict "Q").hasKey "quality_assessment" = true ∧
      ReviewAgent.validate_output (reviewDict "Q") = true) ∧
    ReviewAgent.validate_output (Val.str "x") = false ∧
    ReviewAgent.validate_output (Val.dict []) = false := by
  have h := stage_execute_and_validate_output (ε := Unit)
  exact ⟨h.1 (fun _ => Except.ok "F") "T" _ _ rfl, rfl, rfl,
    h.2.2.1 (fun _ => Except.ok "A") "F" _ _ rfl, rfl, rfl,
    h.2.2.2.2.1 (fun _ => Except.ok "C") "A" _ _ rfl, rfl, rfl,
    h.2.2.2.2.2.2.1 (fun _ => Except.ok "Q") "C" _ _ rfl, rfl, rfl⟩

/-- C7: the Writer stage's result carries a `word_count` equal to the number of
whitespace-separated tokens of its own `content`; the Analysis stage's
`input_summary` equals the first 200 characters of its input; and the Review
stage's `quality_score` and `approved` are the constant literals 0.92 and true,
for every client response and every input. -/
theorem stage_derived_scalar_fields {ε : Type} :
    (∀ (llm : String → Except ε String) (input : String) (ev : List Event) (r : Val),
      WriterAgent.execute llm input = (ev, .ok r) →
      ∃ c, r.lookup "content" = some (.str c) ∧
        r.lookup "word_count" = some (.int ((pySplit c).length : Int))) ∧
    (∀ (llm : String → Except ε String) (input : String) (ev : List Event) (r : Val),
      AnalysisAgent.execute llm input = (ev, .ok r) →
      r.lookup "input_summary" = some (.str (pyTake input 200))) ∧
    (∀ (llm : String → Except ε String) (input : String) (ev : List Event) (r : Val),
      ReviewAgent.execute llm input = (ev, .ok r) →
      r.lookup "quality_score" = some (.num 0.92) ∧
      r.lookup "approved" = some (.bool true)) := by
  refine ⟨?_, ?_, ?_⟩
  · intro llm input ev r h
    obtain ⟨hcore, hev⟩ := trackedExecute_ok "WriterAgent" (WriterAgent.executeCore llm) input ev r h
    obtain ⟨content, hl, hr⟩ := writer_executeCore_ok llm input r hcore
    rw [hr]
    exact ⟨content, rfl, rfl⟩
  · intro llm input ev r h
    obtain ⟨hcore, hev⟩ := trackedExecute_ok "AnalysisAgent" (AnalysisAgent.executeCore llm) input ev r h
    obtain ⟨content, hl, hr⟩ := analysis_executeCore_ok llm input r hcore
    rw [hr]
    rfl
  · intro llm input ev r h
    obtain ⟨hcore, hev⟩ := trackedExecute_ok "ReviewAgent" (ReviewAgent.executeCore llm) input ev r h
    obtain ⟨content, hl, hr⟩ := review_executeCore_ok llm input r hcore
    rw [hr]
    exact ⟨rfl, rfl⟩

/-- Witness for C7: writer content "a b" has word count 2; a 3-character analysis
input echoes unchanged under the 200-character truncation; review scores are the
fixed literals. -/
theorem stage_derived_scalar_fields_witness :
    (∃ c, (writerDict "a b").lookup "content" = some (.str c) ∧
      (writerDict "a b").lookup "word_count" = some (.int ((pySplit c).length : Int))) ∧
    (pySplit "a b").length = 2 ∧
    (analysisDict "F12" "A").lookup "input_summary" = some (.str (pyTake "F12" 200)) ∧
    pyTake "F12" 200 = "F12" ∧
    (reviewDict "Q").lookup "quality_score" = some (.num 0.92) ∧
    (reviewDict "Q").lookup "approved" = some (.bool true) := by
  have h := stage_derived_scalar_fields (ε := Unit)
  have hrev := h.2.2 (fun _ => Except.ok "Q") "C" _ _ rfl
  exact ⟨h.1 (fun _ => Except.ok "a b") "A" _ _ rfl, by decide,
    h.2.1 (fun _ => Except.ok "A") "F12" _ _ rfl, by decide, hrev.1, hrev.2⟩

/-- C8: every successful `execute_workflow` produces a performance record holding
exactly the four per-stage elapsed-millisecond values and one total
elapsed-millisecond value; under a monotone clock all five are non-negative; the
total is `(clock 10 - clock 0) * 1000`, its own start-to-finish reading around the
whole sequence; and it is not the sum of the four per-stage values: a run exists
whose total differs from that sum. -/
theorem performance_record_shape_nonneg_and_independent_total {ε : Type}
    (st : Stages ε) (clock : Nat → ℚ) (history : List WorkflowResult)
    (topic : String) (w : WorkflowResult) (h2 : List WorkflowResult) (ev : List Event)
    (hrun : execute_workflow st clock history topic = (.ok w, h2, ev))
    (hmono : Monotone clock) :
    w.performance.map Prod.fst =
      ["research_time_ms", "analysis_time_ms", "writing_time_ms",
       "review_time_ms", "total_time_ms"] ∧
    (∀ p ∈ w.performance, 0 ≤ p.2) ∧
    w.performance.lookup "total_time_ms" = some ((clock 10 - clock 0) * 1000) ∧
    (∃ (clk : Nat → ℚ) (st2 : Stages Unit) (w2 : WorkflowResult)
      (h3 : List WorkflowResult) (ev2 : List Event),
      execute_workflow st2 clk [] "T" = (.ok w2, h3, ev2) ∧
      w2.performance = successPerf clk ∧
      (clk 10 - clk 0) * 1000 ≠
        (clk 3 - clk 2) * 1000 + (clk 5 - clk 4) * 1000 +
        (clk 7 - clk 6) * 1000 + (clk 9 - clk 8) * 1000) := by
  have hperf : w.performance = successPerf clock := by
    rcases execute_workflow_cases st clock history topic with ⟨e, ev2, heq⟩ | ⟨w2, ev2, heq, hp⟩
    · rw [heq] at hrun
      simp at hrun
    · rw [heq] at hrun
      simp only [Prod.mk.injEq, Except.ok.injEq] at hrun
      rw [← hrun.1]
      exact hp
  have hkey : ∀ a b : Nat, a ≤ b → 0 ≤ (clock b - clock a) * 1000 := fun a b hab =>
    mul_nonneg (sub_nonneg.mpr (hmono hab)) (by norm_num)
  refine ⟨by rw [hperf]; rfl, ?_, by rw [hperf]; rfl, ?_⟩
  · intro p hp
    rw [hperf] at hp
    simp only [successPerf, List.mem_cons, List.not_mem_nil, or_false] at hp
    rcases hp with h | h | h | h | h
    · rw [h]; exact hkey 2 3 (by norm_num)
    · rw [h]; exact hkey 4 5 (by norm_num)
    · rw [h]; exact hkey 6 7 (by norm_num)
    · rw [h]; exact hkey 8 9 (by norm_num)
    · rw [h]; exact hkey 0 10 (by norm_num)
  · refine ⟨fun i => (i : ℚ),
      agentStages (fun _ => (Except.ok "x" : Except Unit String)) (fun _ => Except.ok "x")
        (fun _ => Except.ok "x") (fun _ => Except.ok "x"),
      successResult (fun i => (i : ℚ)) "T" "x" "x" "x" "x",
      [successResult (fun i => (i : ℚ)) "T" "x" "x" "x" "x"],
      successTrace (fun i => (i : ℚ)) "T" "x" "x" "x",
      execute_workflow_ok (fun _ => Except.ok "x") (fun _ => Except.ok "x")
        (fun _ => Except.ok "x") (fun _ => Except.ok "x") (fun i => (i : ℚ)) [] "T"
        "x" "x" "x" "x" rfl rfl rfl rfl, rfl, by norm_num⟩

/-- Witness for C8 at a concrete monotone clock i ↦ i and stub clients. -/
theorem performance_record_shape_nonneg_and_independent_total_witness :
    (successResult (fun i => (i : ℚ)) "T" "F" "A" "C" "Q").performance.map Prod.fst =
      ["research_time_ms", "analysis_time_ms", "writing_time_ms",
       "review_time_ms", "total_time_ms"] ∧
    (∀ p ∈ (successResult (fun i => (i : ℚ)) "T" "F" "A" "C" "Q").performance, 0 ≤ p.2) ∧
    (successResult (fun i => (i : ℚ)) "T" "F" "A" "C" "Q").performance.lookup "total_time_ms" =
      some (((fun i => (i : ℚ)) 10 - (fun i => (i : ℚ)) 0) * 1000) := by
  have h := performance_record_shape_nonneg_and_independent_total
    (agentStages (fun _ => (Except.ok "F" : Except Unit String)) (fun _ => Except.ok "A")
      (fun _ => Except.ok "C") (fun _ => Except.ok "Q"))
    (fun i => (i : ℚ)) [] "T" (successResult (fun i => (i : ℚ)) "T" "F" "A" "C" "Q")
    [successResult (fun i => (i : ℚ)) "T" "F" "A" "C" "Q"]
    (successTrace (fun i => (i : ℚ)) "T" "F" "A" "C")
    (execute_workflow_ok (fun _ => Except.ok "F") (fun _ => Except.ok "A")
      (fun _ => Except.ok "C") (fun _ => Except.ok "Q") (fun i => (i : ℚ)) [] "T"
      "F" "A" "C" "Q" rfl rfl rfl rfl)
    (fun a b hab => Nat.cast_le.mpr hab)
  exact ⟨h.1, h.2.1, h.2.2.1⟩

/-- C9: the run history is append-only and insertion-ordered: a successful
`execute_workflow` returns the history extended by exactly its one result at the
end, with every previously stored entry unchanged (the old history is a prefix of
the new one), and a failed call returns the history unchanged. The two statistics
readers are pure functions of the history and modify nothing. -/
theorem run_history_append_only {ε : Type} (st : Stages ε) (clock : Nat → ℚ)
    (history : List WorkflowResult) (topic : String) :
    (∀ (w : WorkflowResult) (h2 : List WorkflowResult) (ev : List Event),
      execute_workflow st clock history topic = (.ok w, h2, ev) →
      h2 = history ++ [w] ∧ h2.take history.length = history ∧
      h2.length = history.length + 1) ∧
    (∀ (e : ε) (h2 : List WorkflowResult) (ev : List Event),
      execute_workflow st clock history topic = (.error e, h2, ev) →
      h2 = history) := by
  constructor
  · intro w h2 ev hrun
    rcases execute_workflow_cases st clock history topic with ⟨e, ev2, heq⟩ | ⟨w2, ev2, heq, hp⟩
    · rw [heq] at hrun
      simp at hrun
    · rw [heq] at hrun
      simp only [Prod.mk.injEq, Except.ok.injEq] at hrun
      obtain ⟨hw, hh, hev⟩ := hrun
      refine ⟨by rw [← hh, ← hw], ?_, ?_⟩
      · rw [← hh, List.take_left]
      · rw [← hh]
        simp
  · intro e h2 ev hrun
    rcases execute_workflow_cases st clock history topic with ⟨e2, ev2, heq⟩ | ⟨w2, ev2, heq, hp⟩
    · rw [heq] at hrun
      simp only [Prod.mk.injEq, Except.error.injEq] at hrun
      exact hrun.2.1.symm
    · rw [heq] at hrun
      simp at hrun

/-- Witness for C9: a successful run appends its one result to a one-element
history; a failing run leaves it unchanged. -/
theorem run_history_append_only_witness :
    ([timingOnlyRun "w0" 5] ++ [successResult (fun i => (i : ℚ)) "T" "F" "A" "C" "Q"] =
      [timingOnlyRun "w0" 5] ++ [successResult (fun i => (i : ℚ)) "T" "F" "A" "C" "Q"] ∧
     ([timingOnlyRun "w0" 5] ++ [successResult (fun i => (i : ℚ)) "T" "F" "A" "C" "Q"]).take
        [timingOnlyRun "w0" 5].length = [timingOnlyRun "w0" 5] ∧
     ([timingOnlyRun "w0" 5] ++ [successResult (fun i => (i : ℚ)) "T" "F" "A" "C" "Q"]).length =
        [timingOnlyRun "w0" 5].length + 1) ∧
    ([timingOnlyRun "w0" 5] = [timingOnlyRun "w0" 5]) := by
  constructor
  · exact (run_history_append_only
      (agentStages (fun _ => (Except.ok "F" : Except Unit String)) (fun _ => Except.ok "A")
        (fun _ => Except.ok "C") (fun _ => Except.ok "Q"))
      (fun i => (i : ℚ)) [timingOnlyRun "w0" 5] "T").1
      (successResult (fun i => (i : ℚ)) "T" "F" "A" "C" "Q")
      ([timingOnlyRun "w0" 5] ++ [successResult (fun i => (i : ℚ)) "T" "F" "A" "C" "Q"])
      (successTrace (fun i => (i : ℚ)) "T" "F" "A" "C")
      (execute_workflow_ok (fun _ => Except.ok "F") (fun _ => Except.ok "A")
        (fun _ => Except.ok "C") (fun _ => Except.ok "Q") (fun i => (i : ℚ))
        [timingOnlyRun "w0" 5] "T" "F" "A" "C" "Q" rfl rfl rfl rfl)
  · exact (run_history_append_only
      (agentStages (fun _ => (Except.error () : Except Unit String)) (fun _ => Except.ok "A")
        (fun _ => Except.ok "C") (fun _ => Except.ok "Q"))
      (fun i => (i : ℚ)) [timingOnlyRun "w0" 5] "T").2 ()
      [timingOnlyRun "w0" 5]
      [.agentStart "ResearchAgent" "execute" "T", .agentError "ResearchAgent" "execute"]
      rfl

/-- C10: the orchestrator reads each stage's primary field with a defaulting
lookup (`.get(key, "")`): whenever a stage's result dict lacks its designated
primary field, the next stage is still invoked — with the empty string as input —
rather than the pipeline failing on the extraction; the extraction function is
total and returns `""` on any dict lacking the key. Stated over arbitrary
decorated stage bodies, since the real agents always populate their fields. -/
theorem defaulting_primary_field_extraction {ε : Type}
    (rc ac wc vc : String → Except ε Val) (clock : Nat → ℚ)
    (history : List WorkflowResult) (topic : String) :
    (∀ fields, rc topic = .ok (.dict fields) → fields.lookup "findings" = none →
      Event.agentStart "AnalysisAgent" "execute" "" ∈
        (execute_workflow (trackedStages rc ac wc vc) clock history topic).2.2) ∧
    (∀ d1 fields, rc topic = .ok d1 →
      ac (getFieldD d1 "findings") = .ok (.dict fields) →
      fields.lookup "insights" = none →
      Event.agentStart "WriterAgent" "execute" "" ∈
        (execute_workflow (trackedStages rc ac wc vc) clock history topic).2.2) ∧
    (∀ d1 d2 fields, rc topic = .ok d1 → ac (getFieldD d1 "findings") = .ok d2 →
      wc (getFieldD d2 "insights") = .ok (.dict fields) →
      fields.lookup "content" = none →
      Event.agentStart "ReviewAgent" "execute" "" ∈
        (execute_workflow (trackedStages rc ac wc vc) clock history topic).2.2) ∧
    (∀ (fields : List (String × Val)) (key : String), fields.lookup key = none →
      getFieldD (.dict fields) key = "") := by
  refine ⟨?_, ?_, ?_, ?_⟩
  · intro fields hrc hnone
    have hget : getFieldD (.dict fields) "findings" = "" := by simp [getFieldD, hnone]
    rcases hac : ac "" with e2 | d2
    · simp [execute_workflow, trackedStages, trackedExecute, hrc, hget, hac]
    · rcases hwc : wc (getFieldD d2 "insights") with e3 | d3
      · simp [execute_workflow, trackedStages, trackedExecute, hrc, hget, hac, hwc]
      · rcases hvc : vc (getFieldD d3 "content") with e4 | d4
        · simp [execute_workflow, trackedStages, trackedExecute, hrc, hget, hac, hwc, hvc]
        · simp [execute_workflow, trackedStages, trackedExecute, hrc, hget, hac, hwc, hvc]
  · intro d1 fields hrc hac hnone
    have hget : getFieldD (.dict fields) "insights" = "" := by simp [getFieldD, hnone]
    rcases hwc : wc "" with e3 | d3
    · simp [execute_workflow, trackedStages, trackedExecute, hrc, hac, hget, hwc]
    · rcases hvc : vc (getFieldD d3 "content") with e4 | d4
      · simp [execute_workflow, trackedStages, trackedExecute, hrc, hac, hget, hwc, hvc]
      · simp [execute_workflow, trackedStages, trackedExecute, hrc, hac, hget, hwc, hvc]
  · intro d1 d2 fields hrc hac hwc hnone
    have hget : getFieldD (.dict fields) "content" = "" := by simp [getFieldD, hnone]
    rcases hvc : vc "" with e4 | d4
    · simp [execute_workflow, trackedStages, trackedExecute, hrc, hac, hwc, hget, hvc]
    · simp [execute_workflow, trackedStages, trackedExecute, hrc, hac, hwc, hget, hvc]
  · intro fields key h
    simp [getFieldD, h]

/-- Witness for C10: stage bodies returning empty dicts (no primary fields); each
later stage is still invoked with the empty string. -/
theorem defaulting_primary_field_extraction_witness :
    Event.agentStart "AnalysisAgent" "execute" "" ∈
      (execute_workflow (trackedStages (fun _ => (Except.ok (Val.dict []) : Except Unit Val))
        (fun _ => Except.ok (Val.dict [])) (fun _ => Except.ok (Val.dict []))
        (fun _ => Except.ok (Val.dict []))) (fun i => (i : ℚ)) [] "T").2.2 ∧
    Event.agentStart "WriterAgent" "execute" "" ∈
      (execute_workflow (trackedStages (fun _ => (Except.ok (Val.dict []) : Except Unit Val))
        (fun _ => Except.ok (Val.dict [])) (fun _ => Except.ok (Val.dict []))
        (fun _ => Except.ok (Val.dict []))) (fun i => (i : ℚ)) [] "T").2.2 ∧
    Event.agentStart "ReviewAgent" "execute" "" ∈
      (execute_workflow (trackedStages (fun _ => (Except.ok (Val.dict []) : Except Unit Val))
        (fun _ => Except.ok (Val.dict [])) (fun _ => Except.ok (Val.dict []))
        (fun _ => Except.ok (Val.dict []))) (fun i => (i : ℚ)) [] "T").2.2 ∧
    getFieldD (.dict []) "findings" = "" := by
  have h := defaulting_primary_field_extraction
    (fun _ => (Except.ok (Val.dict []) : Except Unit Val))
    (fun _ => Except.ok (Val.dict [])) (fun _ => Except.ok (Val.dict []))
    (fun _ => Except.ok (Val.dict [])) (fun i => (i : ℚ)) [] "T"
  exact ⟨h.1 [] rfl rfl, h.2.1 (Val.dict []) [] rfl rfl rfl,
    h.2.2.1 (Val.dict []) (Val.dict []) [] rfl rfl rfl rfl,
    h.2.2.2 [] "findings" rfl⟩
